import Mathlib

/-!
Shallow embedding of `src/App.js` (the Replenish live bakery-order board).

The component keeps six pieces of React state (lines 9-14), initialises
Firebase in a mount effect (lines 24-68), subscribes to a Firestore
collection (lines 71-100), and exposes two async handlers
`handleAddProduct` (lines 103-125) and `handleRemoveProduct`
(lines 128-145).  Asynchronous callbacks are embedded as pure functions
from the component state (plus the parameters the event supplies, such as
the backend's result of an awaited call) to the new state, the list of
externally visible effects the code issues, and the way the handler's
promise settles.
-/

namespace Replenish

/-- One order item as mirrored by the client: `doc.id` together with the
fields written by `handleAddProduct` (lines 114-119): `name`, `timestamp`
(epoch milliseconds from `Date.now()`), `addedBy` (the `userId` state,
which is `null` until sign-in completes). -/
structure Product where
  id : String
  name : String
  timestamp : Nat
  addedBy : Option String
deriving Repr, DecidableEq

/-- One entry of the static catalog (lines 17-21). -/
structure CatalogItem where
  id : String
  name : String
deriving Repr, DecidableEq

/-- The fixed catalog `bakeryItems` (lines 17-21). -/
def bakeryItems : List CatalogItem :=
  [⟨"sausageRoll", "Sausage Roll"⟩,
   ⟨"hamCheeseCroissant", "Ham and Cheese Croissant"⟩,
   ⟨"spinachRoll", "Spinach Roll"⟩]

/-- The environment-injected globals the component reads:
`__firebase_config`, `__app_id`, `__initial_auth_token`; `none` models the
global being `undefined`. -/
structure Env where
  firebaseConfig : Option String
  appId : Option String
  initialAuthToken : Option String
deriving Repr, DecidableEq

/-- The component's runtime state: the six React state cells of lines 9-14
(`db`/`auth` as presence of the handle), plus whether the
`onAuthStateChanged` listener (line 41) and the `onSnapshot` subscription
(line 81) have been registered. -/
structure AppState where
  products : List Product
  db : Bool
  auth : Bool
  userId : Option String
  isAuthReady : Bool
  loading : Bool
  authListenerRegistered : Bool
  subscribed : Bool
deriving Repr, DecidableEq

/-- The state at mount: the `useState` initialisers of lines 9-14; no
listener or subscription is registered yet. -/
def initialState : AppState :=
  { products := [], db := false, auth := false, userId := none,
    isAuthReady := false, loading := true,
    authListenerRegistered := false, subscribed := false }

/-- Externally visible effects the component issues: `console.error`
calls, Firestore `addDoc`/`deleteDoc` calls, and identity-service sign-in
calls. -/
inductive Effect where
  | logError (msg : String)
  | addDoc (path : String) (name : String) (timestamp : Nat) (addedBy : Option String)
  | deleteDoc (path : String) (id : String)
  | signInWithCustomToken (token : String)
  | signInAnonymously
deriving Repr, DecidableEq

/-- Whether an effect is a call into the data service. -/
def Effect.isDataServiceCall : Effect → Bool
  | .addDoc _ _ _ _ => true
  | .deleteDoc _ _ => true
  | _ => false

/-- Whether an effect is a `console.error` log. -/
def Effect.isLog : Effect → Bool
  | .logError _ => true
  | _ => false

/-- Whether an effect is a sign-in call into the identity service. -/
def Effect.isSignIn : Effect → Bool
  | .signInWithCustomToken _ => true
  | .signInAnonymously => true
  | _ => false

/-- How an async callback's promise settles: it resolves (all errors were
caught), or it rejects with no handler attached (an unhandled promise
rejection). -/
inductive Outcome where
  | resolved
  | unhandledRejection (err : String)
deriving Repr, DecidableEq

/-- `const appId = typeof __app_id !== 'undefined' ? __app_id :
'default-app-id'` (lines 76, 111, 136). -/
def appIdOrDefault (env : Env) : String :=
  env.appId.getD ("default-app-id")

/-- The Firestore collection path.  The source computes this same template
string literal at three sites (lines 76-77, 111-112, 136-137). -/
def collectionPath (env : Env) : String :=
  "/artifacts/" ++ appIdOrDefault env ++ "/public/data/bakeryOrders"

/-- The comparator of line 88, `(a, b) => a.timestamp - b.timestamp`, as
the key order it induces: ascending by `timestamp`. -/
def jsTimestampLe (a b : Product) : Bool :=
  a.timestamp ≤ b.timestamp

/-- The snapshot callback's list construction and sort (lines 82-88): the
documents are collected in snapshot order and sorted in place with the
comparator `a.timestamp - b.timestamp`.  `Array.prototype.sort` is
required to be stable (ECMAScript 2019), so it is embedded as the stable
`List.mergeSort` under `jsTimestampLe`. -/
def processSnapshot (snapshot : List Product) : List Product :=
  snapshot.mergeSort jsTimestampLe

/-- The `onSnapshot` success callback (lines 81-91): replace `products`
with the sorted snapshot and clear `loading`. -/
def snapshotCallback (st : AppState) (snapshot : List Product) : AppState :=
  { st with products := processSnapshot snapshot, loading := false }

/-- The `onSnapshot` error callback (lines 92-95). -/
def snapshotErrorCallback (st : AppState) (e : String) : AppState × List Effect :=
  ({ st with loading := false }, [.logError ("Error getting real-time updates: " ++ e)])

/-- The subscription effect body (lines 71-100): when `isAuthReady && db`,
set `loading` and open the `onSnapshot` subscription on `collectionPath`;
otherwise do nothing.  Returns the path subscribed to, if any. -/
def subscribeEffect (env : Env) (st : AppState) : AppState × Option String :=
  if st.isAuthReady && st.db then
    ({ st with loading := true, subscribed := true }, some (collectionPath env))
  else
    (st, none)

/-- One run of an async handler: the state held while the awaited backend
call is in flight (`none` when the handler returned at the precondition
check), the state when the handler completes, the effects issued, and how
its promise settles. -/
structure HandlerRun where
  duringAwait : Option AppState
  final : AppState
  effects : List Effect
  outcome : Outcome
deriving Repr, DecidableEq

/-- `handleAddProduct` (lines 103-125).  `now` is the value of
`Date.now()` at line 116; `writeResult` is how the awaited `addDoc`
settles (`Except.ok` with the generated id, or `Except.error` with the
rejection).  Both branches of the `try`/`catch` clear `loading` and the
promise resolves. -/
def handleAddProduct (env : Env) (st : AppState) (product : CatalogItem)
    (now : Nat) (writeResult : Except String String) : HandlerRun :=
  if !st.db || !st.isAuthReady then
    { duringAwait := none, final := st,
      effects := [.logError ("Database not ready or not authenticated.")],
      outcome := .resolved }
  else
    let addEff := Effect.addDoc (collectionPath env) product.name now st.userId
    match writeResult with
    | .ok _ =>
      { duringAwait := some { st with loading := true },
        final := { st with loading := false },
        effects := [addEff], outcome := .resolved }
    | .error e =>
      { duringAwait := some { st with loading := true },
        final := { st with loading := false },
        effects := [addEff, .logError ("Error adding document: " ++ e)],
        outcome := .resolved }

/-- `handleRemoveProduct` (lines 128-145); `writeResult` is how the
awaited `deleteDoc` settles. -/
def handleRemoveProduct (env : Env) (st : AppState) (id : String)
    (writeResult : Except String Unit) : HandlerRun :=
  if !st.db || !st.isAuthReady then
    { duringAwait := none, final := st,
      effects := [.logError ("Database not ready or not authenticated.")],
      outcome := .resolved }
  else
    let delEff := Effect.deleteDoc (collectionPath env) id
    match writeResult with
    | .ok _ =>
      { duringAwait := some { st with loading := true },
        final := { st with loading := false },
        effects := [delEff], outcome := .resolved }
    | .error e =>
      { duringAwait := some { st with loading := true },
        final := { st with loading := false },
        effects := [delEff, .logError ("Error removing document: " ++ e)],
        outcome := .resolved }

/-- The `onAuthStateChanged` callback (lines 41-57).  With a signed-in
user it records the uid, sets readiness and clears `loading`.  With no
user it awaits `signInWithCustomToken` (when `__initial_auth_token` is
defined) or `signInAnonymously`; the `async` callback has no
`try`/`catch`, so a rejected sign-in becomes an unhandled promise
rejection and no state is updated. -/
def authStateChangedCallback (env : Env) (st : AppState) (user : Option String)
    (signInResult : Except String Unit) : AppState × List Effect × Outcome :=
  match user with
  | some uid =>
    ({ st with userId := some uid, isAuthReady := true, loading := false }, [], .resolved)
  | none =>
    let eff := match env.initialAuthToken with
      | some tok => Effect.signInWithCustomToken tok
      | none => Effect.signInAnonymously
    match signInResult with
    | .ok _ => (st, [eff], .resolved)
    | .error e => (st, [eff], .unhandledRejection e)

/-- The mount effect (lines 24-68).  When both `__firebase_config` and
`__app_id` are defined, the `try` block parses the config, builds the
Firebase app and the Firestore/Auth handles, stores them, and registers
the auth listener; `setupResult` is `Except.error` when one of the calls
of lines 29-34 throws (that happens before any state update, so the
`catch` of lines 61-63 only logs).  Otherwise (lines 64-67) it logs the
missing configuration and clears `loading`. -/
def initEffect (env : Env) (st : AppState) (setupResult : Except String Unit) :
    AppState × List Effect :=
  if env.firebaseConfig.isSome && env.appId.isSome then
    match setupResult with
    | .ok _ =>
      ({ st with db := true, auth := true, authListenerRegistered := true }, [])
    | .error e =>
      (st, [.logError ("Failed to initialize Firebase: " ++ e)])
  else
    ({ st with loading := false }, [.logError ("Firebase config or app ID not found.")])

/-- What the products grid renders (lines 164-183). -/
inductive ProductsView where
  | emptyMessage (text : String)
  | rows (entries : List (String × String))
deriving Repr, DecidableEq

/-- The products grid (lines 164-183): the empty-state paragraph when
`products.length === 0`, else one row per product, keyed by `product.id`
and labelled `product.name`, in list order. -/
def renderProductsGrid (products : List Product) : ProductsView :=
  if products.length = 0 then
    .emptyMessage ("No items in the list. Add some!")
  else
    .rows (products.map fun p => (p.id, p.name))

/-- Modelled from the spec: the external data service's
`delete-document(collectionPath, id)` operation (spec section 6) removes
the document with the given identifier from the collection; deleting an
identifier that is not present leaves the collection unchanged and the
call succeeds.  The service itself is not part of this repository. -/
def deleteDocBackend (backend : List Product) (id : String) : List Product :=
  backend.filter fun d => d.id ≠ id

/-- One asynchronous event the runtime can deliver after mount: an auth
state change (only once the listener of line 41 is registered), a run of
the subscription effect, a snapshot or snapshot error (only once
subscribed), or a completed handler invocation. -/
inductive Step (env : Env) : AppState → AppState → Prop where
  | authEvent (st : AppState) (user : Option String) (signInResult : Except String Unit)
      (hl : st.authListenerRegistered = true) :
      Step env st (authStateChangedCallback env st user signInResult).1
  | subscribeRun (st : AppState) :
      Step env st (subscribeEffect env st).1
  | snapshotEvent (st : AppState) (snapshot : List Product)
      (hs : st.subscribed = true) :
      Step env st (snapshotCallback st snapshot)
  | snapshotErrorEvent (st : AppState) (e : String)
      (hs : st.subscribed = true) :
      Step env st (snapshotErrorCallback st e).1
  | addEvent (st : AppState) (product : CatalogItem) (now : Nat)
      (wr : Except String String) :
      Step env st (handleAddProduct env st product now wr).final
  | removeEvent (st : AppState) (id : String) (wr : Except String Unit) :
      Step env st (handleRemoveProduct env st id wr).final

/-- Reachability through any sequence of post-mount events. -/
def Reach (env : Env) : AppState → AppState → Prop :=
  Relation.ReflTransGen (Step env)

/-- Specification-side definition of the claimed ordering policy: the
canonical stable sort (insertion sort) by creation timestamp ascending.
`specOrderedInsert` places `p` before the first element whose timestamp
is not smaller, so elements with equal timestamps keep their relative
order. -/
def specOrderedInsert (p : Product) : List Product → List Product
  | [] => [p]
  | q :: qs => if p.timestamp ≤ q.timestamp then p :: q :: qs else q :: specOrderedInsert p qs

/-- Specification-side stable sort by timestamp ascending (insertion
sort), to be compared with `processSnapshot`. -/
def specStableSortByTimestamp : List Product → List Product
  | [] => []
  | p :: ps => specOrderedInsert p (specStableSortByTimestamp ps)

/-! ### Sorting lemmas -/

lemma jsTimestampLe_trans : ∀ a b c : Product,
    jsTimestampLe a b → jsTimestampLe b c → jsTimestampLe a c := by
  intro a b c hab hbc
  simp only [jsTimestampLe, decide_eq_true_eq] at *
  omega

lemma jsTimestampLe_total : ∀ a b : Product, jsTimestampLe a b || jsTimestampLe b a := by
  intro a b
  simp only [jsTimestampLe, Bool.or_eq_true, decide_eq_true_eq]
  omega

lemma specOrderedInsert_append (a : Product) (l₁ l₂ : List Product)
    (h₁ : ∀ b ∈ l₁, ¬ a.timestamp ≤ b.timestamp)
    (h₂ : ∀ c ∈ l₂, a.timestamp ≤ c.timestamp) :
    specOrderedInsert a (l₁ ++ l₂) = l₁ ++ a :: l₂ := by
  induction l₁ with
  | nil =>
    cases l₂ with
    | nil => rfl
    | cons c cs =>
      simp only [List.nil_append, specOrderedInsert,
        if_pos (h₂ c (List.mem_cons_self c cs))]
  | cons b bs ih =>
    have hb : ¬ a.timestamp ≤ b.timestamp := h₁ b (List.mem_cons_self b bs)
    simp only [List.cons_append, specOrderedInsert, if_neg hb, List.append_eq]
    rw [ih (fun x hx => h₁ x (List.mem_cons_of_mem b hx))]

/-- `processSnapshot` (the embedded client-side sort of line 88) computes
exactly the canonical stable sort by timestamp ascending. -/
lemma mergeSort_eq_specStableSort :
    ∀ l : List Product, l.mergeSort jsTimestampLe = specStableSortByTimestamp l
  | [] => by simp [specStableSortByTimestamp]
  | a :: l => by
    obtain ⟨l₁, l₂, h₁, h₂, h₃⟩ :=
      List.mergeSort_cons jsTimestampLe_trans jsTimestampLe_total a l
    have hs := List.sorted_mergeSort jsTimestampLe_trans jsTimestampLe_total (a :: l)
    rw [h₁] at hs
    have hl₂ : ∀ c ∈ l₂, a.timestamp ≤ c.timestamp := by
      intro c hc
      have hrel := List.rel_of_pairwise_cons (List.pairwise_append.mp hs).2.1 hc
      simpa [jsTimestampLe] using hrel
    have hl₁ : ∀ b ∈ l₁, ¬ a.timestamp ≤ b.timestamp := by
      intro b hb
      have hnb := h₃ b hb
      simpa [jsTimestampLe] using hnb
    calc (a :: l).mergeSort jsTimestampLe
        = l₁ ++ a :: l₂ := h₁
      _ = specOrderedInsert a (l₁ ++ l₂) :=
          (specOrderedInsert_append a l₁ l₂ hl₁ hl₂).symm
      _ = specOrderedInsert a (l.mergeSort jsTimestampLe) := by rw [h₂]
      _ = specOrderedInsert a (specStableSortByTimestamp l) := by
          rw [mergeSort_eq_specStableSort l]
      _ = specStableSortByTimestamp (a :: l) := rfl

/-! ### Concrete fixtures used by the witnesses -/

/-- A sample environment: both required globals defined, no auth token. -/
def sampleEnv : Env :=
  { firebaseConfig := some ("cfg"), appId := some ("demo"), initialAuthToken := none }

/-- A sample environment with the backend configuration absent. -/
def noConfigEnv : Env :=
  { firebaseConfig := none, appId := some ("demo"), initialAuthToken := none }

/-- A sample state after initialisation, sign-in and a first snapshot. -/
def readyState : AppState :=
  { products := [], db := true, auth := true, userId := some ("user-1"),
    isAuthReady := true, loading := false,
    authListenerRegistered := true, subscribed := true }

/-- A sample order item with the smaller timestamp. -/
def sampleEarly : Product :=
  ⟨"doc-a", "Sausage Roll", 100, some ("user-1")⟩

/-- A sample order item with the larger timestamp. -/
def sampleLate : Product :=
  ⟨"doc-b", "Spinach Roll", 200, some ("user-1")⟩

/-- The state right after a successful initialisation at mount (the
`Except.ok` branch of `initEffect` applied to `initialState`). -/
def postInitState : AppState := (initEffect sampleEnv initialState (.ok ())).1

/-- A ready state whose mirror reflects a one-item backend collection. -/
def mirrorState : AppState :=
  { readyState with products := processSnapshot [sampleEarly] }

/-! ### Claim theorems -/

/-- C1: for every snapshot received from the backend, the product list
rendered after the snapshot callback equals the stable sort of the
snapshot's items by creation timestamp ascending; and whenever the
timestamps are pairwise distinct — as for a sequence of inserts with
distinct timestamps — that list is a permutation of the snapshot's items
that is strictly ascending in timestamp. -/
theorem C1_rendered_order (st : AppState) (snapshot : List Product) :
    (snapshotCallback st snapshot).products = specStableSortByTimestamp snapshot ∧
    ((snapshot.map Product.timestamp).Nodup →
      List.Perm (snapshotCallback st snapshot).products snapshot ∧
      (snapshotCallback st snapshot).products.Pairwise
        (fun a b => a.timestamp < b.timestamp)) := by
  constructor
  · simp [snapshotCallback, processSnapshot, mergeSort_eq_specStableSort]
  · intro hnd
    have hperm : List.Perm (snapshot.mergeSort jsTimestampLe) snapshot :=
      List.mergeSort_perm snapshot jsTimestampLe
    constructor
    · simpa [snapshotCallback, processSnapshot] using hperm
    · have hle := List.sorted_mergeSort jsTimestampLe_trans jsTimestampLe_total snapshot
      have hnd' : ((snapshot.mergeSort jsTimestampLe).map Product.timestamp).Nodup :=
        ((hperm.map Product.timestamp).nodup_iff).mpr hnd
      have hne : (snapshot.mergeSort jsTimestampLe).Pairwise
          (fun a b => a.timestamp ≠ b.timestamp) := List.pairwise_map.mp hnd'
      have hlt : (snapshot.mergeSort jsTimestampLe).Pairwise
          (fun a b => a.timestamp < b.timestamp) :=
        hle.imp₂ (fun a b hab hab' => Nat.lt_of_le_of_ne
          (by simpa [jsTimestampLe, decide_eq_true_eq] using hab) hab') hne
      simpa [snapshotCallback, processSnapshot] using hlt

/-- C1 witness: the theorem applied to a concrete two-item snapshot
delivered in descending timestamp order; the distinct-timestamp
hypothesis is discharged by evaluation. -/
theorem C1_rendered_order_witness :
    (snapshotCallback initialState [sampleLate, sampleEarly]).products
      = specStableSortByTimestamp [sampleLate, sampleEarly] ∧
    List.Perm (snapshotCallback initialState [sampleLate, sampleEarly]).products
      [sampleLate, sampleEarly] ∧
    (snapshotCallback initialState [sampleLate, sampleEarly]).products.Pairwise
      (fun a b => a.timestamp < b.timestamp) :=
  ⟨(C1_rendered_order initialState [sampleLate, sampleEarly]).1,
   ((C1_rendered_order initialState [sampleLate, sampleEarly]).2 (by decide)).1,
   ((C1_rendered_order initialState [sampleLate, sampleEarly]).2 (by decide)).2⟩

/-- C2: when the database handle is absent or identity readiness is
false, both handlers issue no data-service call and log the precondition
failure to the console. -/
theorem C2_precondition_guard (env : Env) (st : AppState) (product : CatalogItem)
    (now : Nat) (wr : Except String String) (id : String) (wr2 : Except String Unit)
    (h : st.db = false ∨ st.isAuthReady = false) :
    (handleAddProduct env st product now wr).effects
        = [.logError ("Database not ready or not authenticated.")] ∧
    (handleRemoveProduct env st id wr2).effects
        = [.logError ("Database not ready or not authenticated.")] ∧
    (handleAddProduct env st product now wr).effects.filter Effect.isDataServiceCall = [] ∧
    (handleRemoveProduct env st id wr2).effects.filter Effect.isDataServiceCall = [] := by
  rcases h with h | h <;>
    simp [handleAddProduct, handleRemoveProduct, h, Effect.isDataServiceCall,
      List.filter]

/-- C2 witness: the theorem applied at the initial state (no database
handle yet) with concrete handler arguments. -/
theorem C2_precondition_guard_witness :
    (handleAddProduct sampleEnv initialState ⟨"sausageRoll", "Sausage Roll"⟩ 100
        (.ok ("doc-a"))).effects
      = [.logError ("Database not ready or not authenticated.")] ∧
    (handleRemoveProduct sampleEnv initialState ("doc-a") (.ok ())).effects
      = [.logError ("Database not ready or not authenticated.")] ∧
    (handleAddProduct sampleEnv initialState ⟨"sausageRoll", "Sausage Roll"⟩ 100
        (.ok ("doc-a"))).effects.filter Effect.isDataServiceCall = [] ∧
    (handleRemoveProduct sampleEnv initialState ("doc-a") (.ok ())).effects.filter
        Effect.isDataServiceCall = [] :=
  C2_precondition_guard sampleEnv initialState ⟨"sausageRoll", "Sausage Roll"⟩ 100
    (.ok ("doc-a")) ("doc-a") (.ok ()) (Or.inl rfl)

/-- C3 counterexample: with identity ready and the backend rejecting the
write, `handleAddProduct` catches the rejection, logs it, and its promise
resolves — the call does not fail with a `BackendWriteError` (the code
defines no such error and never lets a write failure escape); likewise it
resolves when identity is not ready. -/
theorem C3_counterexample :
    (handleAddProduct sampleEnv readyState ⟨"sausageRoll", "Sausage Roll"⟩ 100
        (.error ("permission-denied"))).outcome = .resolved ∧
    (handleAddProduct sampleEnv readyState ⟨"sausageRoll", "Sausage Roll"⟩ 100
        (.error ("permission-denied"))).effects
      = [.addDoc ("/artifacts/demo/public/data/bakeryOrders") ("Sausage Roll") 100
          (some ("user-1")),
         .logError ("Error adding document: permission-denied")] ∧
    (handleAddProduct sampleEnv initialState ⟨"sausageRoll", "Sausage Roll"⟩ 100
        (.ok ("doc-a"))).outcome = .resolved := by
  decide

/-- C3 (amended): when identity is ready, each `handleAddProduct`
invocation issues exactly one add-document call — tagged with the current
session identifier and the supplied client timestamp, at the scoped
collection path — with no retry; a rejected write is logged to the
console and the handler's promise resolves (it does not fail with a
`BackendWriteError`). -/
theorem C3_insert_one_tagged_write (env : Env) (st : AppState) (product : CatalogItem)
    (now : Nat) (wr : Except String String)
    (hdb : st.db = true) (hready : st.isAuthReady = true) :
    (handleAddProduct env st product now wr).effects.filter Effect.isDataServiceCall
      = [.addDoc (collectionPath env) product.name now st.userId] ∧
    (handleAddProduct env st product now wr).outcome = .resolved ∧
    (∀ e : String, wr = .error e →
      Effect.logError ("Error adding document: " ++ e)
        ∈ (handleAddProduct env st product now wr).effects) := by
  cases wr <;>
    simp [handleAddProduct, hdb, hready, Effect.isDataServiceCall, List.filter]

/-- C3 witness: the amended theorem applied at the ready state with a
concrete rejected write. -/
theorem C3_insert_one_tagged_write_witness :
    (handleAddProduct sampleEnv readyState ⟨"spinachRoll", "Spinach Roll"⟩ 200
        (.error ("net"))).effects.filter Effect.isDataServiceCall
      = [.addDoc (collectionPath sampleEnv) ("Spinach Roll") 200 (some ("user-1"))] ∧
    (handleAddProduct sampleEnv readyState ⟨"spinachRoll", "Spinach Roll"⟩ 200
        (.error ("net"))).outcome = .resolved ∧
    (∀ e : String, (Except.error ("net") : Except String String) = .error e →
      Effect.logError ("Error adding document: " ++ e)
        ∈ (handleAddProduct sampleEnv readyState ⟨"spinachRoll", "Spinach Roll"⟩ 200
            (.error ("net"))).effects) :=
  C3_insert_one_tagged_write sampleEnv readyState ⟨"spinachRoll", "Spinach Roll"⟩ 200
    (.error ("net")) rfl rfl

/-- C4 counterexample: at the state the component mounts in (the
`useState` initialisers of lines 9-14) no insert or remove has been
invoked, yet the loading indicator is already true — so the indicator is
not false outside insert/remove spans. -/
theorem C4_counterexample : initialState.loading = true := rfl

/-- C4 (amended): when the readiness precondition holds, each handler
holds the loading flag true for the span of the awaited backend call and
resets it to false at completion, on success and failure alike; the flag
is however not false at all other times (it is true from mount until the
first auth or snapshot event, and while a subscription is opened). -/
theorem C4_loading_span (env : Env) (st : AppState) (product : CatalogItem)
    (now : Nat) (wr : Except String String) (id : String) (wr2 : Except String Unit)
    (hdb : st.db = true) (hready : st.isAuthReady = true) :
    (handleAddProduct env st product now wr).duringAwait
      = some { st with loading := true } ∧
    (handleAddProduct env st product now wr).final.loading = false ∧
    (handleRemoveProduct env st id wr2).duringAwait
      = some { st with loading := true } ∧
    (handleRemoveProduct env st id wr2).final.loading = false := by
  cases wr <;> cases wr2 <;>
    simp [handleAddProduct, handleRemoveProduct, hdb, hready]

/-- C4 witness: the amended theorem applied at the ready state, with a
succeeding add and a failing remove. -/
theorem C4_loading_span_witness :
    (handleAddProduct sampleEnv readyState ⟨"sausageRoll", "Sausage Roll"⟩ 100
        (.ok ("doc-a"))).duringAwait = some { readyState with loading := true } ∧
    (handleAddProduct sampleEnv readyState ⟨"sausageRoll", "Sausage Roll"⟩ 100
        (.ok ("doc-a"))).final.loading = false ∧
    (handleRemoveProduct sampleEnv readyState ("doc-a")
        (.error ("net"))).duringAwait = some { readyState with loading := true } ∧
    (handleRemoveProduct sampleEnv readyState ("doc-a")
        (.error ("net"))).final.loading = false :=
  C4_loading_span sampleEnv readyState ⟨"sausageRoll", "Sausage Roll"⟩ 100
    (.ok ("doc-a")) ("doc-a") (.error ("net")) rfl rfl

/-- C5 counterexample: with deployment identifier "demo" the code
addresses "/artifacts/demo/public/data/bakeryOrders", not the claimed
"demo/public/data/bakeryOrders" — the template has an "/artifacts/"
prefix the claim omits. -/
theorem C5_counterexample :
    collectionPath sampleEnv ≠ ("demo/public/data/bakeryOrders") ∧
    collectionPath sampleEnv = ("/artifacts/demo/public/data/bakeryOrders") := by
  decide

/-- C5 (amended): every data-service operation — the snapshot
subscription, the add-document call and the delete-document call —
addresses the collection path "/artifacts/" ++ deploymentId ++
"/public/data/bakeryOrders", where deploymentId is the externally
supplied identifier, falling back to "default-app-id" when absent. -/
theorem C5_collection_path (env : Env) (st : AppState) (product : CatalogItem)
    (now : Nat) (wr : Except String String) (id : String) (wr2 : Except String Unit)
    (hdb : st.db = true) (hready : st.isAuthReady = true) :
    (subscribeEffect env st).2
      = some ("/artifacts/" ++ appIdOrDefault env ++ "/public/data/bakeryOrders") ∧
    (handleAddProduct env st product now wr).effects.head?
      = some (.addDoc ("/artifacts/" ++ appIdOrDefault env ++ "/public/data/bakeryOrders")
          product.name now st.userId) ∧
    (handleRemoveProduct env st id wr2).effects.head?
      = some (.deleteDoc ("/artifacts/" ++ appIdOrDefault env ++ "/public/data/bakeryOrders")
          id) := by
  cases wr <;> cases wr2 <;>
    simp [subscribeEffect, handleAddProduct, handleRemoveProduct, hdb, hready,
      collectionPath]

/-- C5 witness: the amended theorem applied at the ready state in the
sample environment (deployment identifier "demo"). -/
theorem C5_collection_path_witness :
    (subscribeEffect sampleEnv readyState).2
      = some ("/artifacts/" ++ appIdOrDefault sampleEnv ++ "/public/data/bakeryOrders") ∧
    (handleAddProduct sampleEnv readyState ⟨"sausageRoll", "Sausage Roll"⟩ 100
        (.ok ("doc-a"))).effects.head?
      = some (.addDoc ("/artifacts/" ++ appIdOrDefault sampleEnv ++ "/public/data/bakeryOrders")
          ("Sausage Roll") 100 (some ("user-1"))) ∧
    (handleRemoveProduct sampleEnv readyState ("doc-a") (.ok ())).effects.head?
      = some (.deleteDoc ("/artifacts/" ++ appIdOrDefault sampleEnv ++ "/public/data/bakeryOrders")
          ("doc-a")) :=
  C5_collection_path sampleEnv readyState ⟨"sausageRoll", "Sausage Roll"⟩ 100
    (.ok ("doc-a")) ("doc-a") (.ok ()) rfl rfl

/-- C6 counterexample: when anonymous sign-in rejects, the `async` auth
callback (lines 41-57) has no `try`/`catch`, so the component emits no
log effect at all — the effects are just the single sign-in attempt and
the rejection escapes unhandled.  The claim's "the error is reported to
an operator-visible log" fails. -/
theorem C6_counterexample :
    authStateChangedCallback sampleEnv postInitState none
        (.error ("auth/network-request-failed"))
      = (postInitState, [Effect.signInAnonymously],
         Outcome.unhandledRejection ("auth/network-request-failed")) := by
  decide

/-- C6 (amended): when a sign-in call rejects, the component logs
nothing (the rejection propagates as an unhandled promise rejection),
exactly one sign-in attempt was made (no retry), the state is unchanged
so readiness remains false, and no data-service call is issued. -/
theorem C6_signin_failure (env : Env) (st : AppState) (e : String)
    (h : st.isAuthReady = false) :
    (authStateChangedCallback env st none (.error e)).1 = st ∧
    (authStateChangedCallback env st none (.error e)).1.isAuthReady = false ∧
    (authStateChangedCallback env st none (.error e)).2.2 = .unhandledRejection e ∧
    (authStateChangedCallback env st none (.error e)).2.1.filter Effect.isLog = [] ∧
    (authStateChangedCallback env st none (.error e)).2.1.filter
        Effect.isDataServiceCall = [] ∧
    ((authStateChangedCallback env st none (.error e)).2.1.filter
        Effect.isSignIn).length = 1 := by
  cases htok : env.initialAuthToken <;>
    simp [authStateChangedCallback, htok, h, Effect.isLog, Effect.isDataServiceCall,
      Effect.isSignIn, List.filter]

/-- C6 witness: the amended theorem applied at the post-initialisation
state with a concrete sign-in error. -/
theorem C6_signin_failure_witness :
    (authStateChangedCallback sampleEnv postInitState none
        (.error ("auth/too-many-requests"))).1 = postInitState ∧
    (authStateChangedCallback sampleEnv postInitState none
        (.error ("auth/too-many-requests"))).1.isAuthReady = false ∧
    (authStateChangedCallback sampleEnv postInitState none
        (.error ("auth/too-many-requests"))).2.2
      = .unhandledRejection ("auth/too-many-requests") ∧
    (authStateChangedCallback sampleEnv postInitState none
        (.error ("auth/too-many-requests"))).2.1.filter Effect.isLog = [] ∧
    (authStateChangedCallback sampleEnv postInitState none
        (.error ("auth/too-many-requests"))).2.1.filter Effect.isDataServiceCall = [] ∧
    ((authStateChangedCallback sampleEnv postInitState none
        (.error ("auth/too-many-requests"))).2.1.filter Effect.isSignIn).length = 1 :=
  C6_signin_failure sampleEnv postInitState ("auth/too-many-requests") rfl

/-- A state in which the component can never react again: no handles, no
auth listener, no subscription, readiness false. -/
def InertState (st : AppState) : Prop :=
  st.authListenerRegistered = false ∧ st.db = false ∧ st.auth = false ∧
  st.isAuthReady = false ∧ st.subscribed = false

lemma inert_preserved {env : Env} {s s' : AppState}
    (h : InertState s) (hs : Step env s s') : InertState s' := by
  obtain ⟨hl, hdb, hauth, hready, hsub⟩ := h
  cases hs with
  | authEvent user signInResult hl' => exact absurd hl' (by simp [hl])
  | subscribeRun =>
      have hid : (subscribeEffect env s).1 = s := by simp [subscribeEffect, hready]
      rw [hid]
      exact ⟨hl, hdb, hauth, hready, hsub⟩
  | snapshotEvent snapshot hs' => exact absurd hs' (by simp [hsub])
  | snapshotErrorEvent e hs' => exact absurd hs' (by simp [hsub])
  | addEvent product now wr =>
      have hid : (handleAddProduct env s product now wr).final = s := by
        simp [handleAddProduct, hdb]
      rw [hid]
      exact ⟨hl, hdb, hauth, hready, hsub⟩
  | removeEvent id wr =>
      have hid : (handleRemoveProduct env s id wr).final = s := by
        simp [handleRemoveProduct, hdb]
      rw [hid]
      exact ⟨hl, hdb, hauth, hready, hsub⟩

lemma inert_reach {env : Env} {s s' : AppState}
    (h : InertState s) (hr : Reach env s s') : InertState s' := by
  induction hr with
  | refl => exact h
  | tail _ hstep ih => exact inert_preserved ih hstep

/-- C7: when the backend configuration or the deployment identifier is
absent, the mount effect logs the condition and clears the loading flag,
creates no database or auth handle, and no sequence of post-mount events
can ever make readiness true — the UI stays inert. -/
theorem C7_missing_config_inert (env : Env) (setupResult : Except String Unit)
    (hcfg : env.firebaseConfig = none ∨ env.appId = none)
    (st' : AppState)
    (hr : Reach env (initEffect env initialState setupResult).1 st') :
    (initEffect env initialState setupResult).2
      = [.logError ("Firebase config or app ID not found.")] ∧
    (initEffect env initialState setupResult).1.loading = false ∧
    (initEffect env initialState setupResult).1.db = false ∧
    (initEffect env initialState setupResult).1.auth = false ∧
    st'.isAuthReady = false := by
  have hguard : (env.firebaseConfig.isSome && env.appId.isSome) = false := by
    rcases hcfg with h | h <;> simp [h]
  have hinit : (initEffect env initialState setupResult).1
      = { initialState with loading := false } := by
    simp [initEffect, hguard]
  rw [hinit] at hr
  refine ⟨by simp [initEffect, hguard], by rw [hinit], ?_, ?_, ?_⟩
  · rw [hinit]
    rfl
  · rw [hinit]
    rfl
  · exact (inert_reach ⟨rfl, rfl, rfl, rfl, rfl⟩ hr).2.2.2.1

/-- C7 witness: the theorem applied to an environment with the backend
configuration absent, with the empty reachability path. -/
theorem C7_missing_config_inert_witness :
    (initEffect noConfigEnv initialState (.ok ())).2
      = [.logError ("Firebase config or app ID not found.")] ∧
    (initEffect noConfigEnv initialState (.ok ())).1.loading = false ∧
    (initEffect noConfigEnv initialState (.ok ())).1.db = false ∧
    (initEffect noConfigEnv initialState (.ok ())).1.auth = false ∧
    (initEffect noConfigEnv initialState (.ok ())).1.isAuthReady = false :=
  C7_missing_config_inert noConfigEnv (.ok ()) (Or.inl rfl)
    (initEffect noConfigEnv initialState (.ok ())).1 Relation.ReflTransGen.refl

/-- C8: an empty mirrored list renders exactly the literal empty-state
message, and a non-empty list renders one row per item — keyed by id and
labelled by name, in list order — instead. -/
theorem C8_empty_state (ps : List Product) :
    (ps = [] →
      renderProductsGrid ps = .emptyMessage ("No items in the list. Add some!")) ∧
    (ps ≠ [] →
      renderProductsGrid ps = .rows (ps.map fun p => (p.id, p.name)) ∧
      (ps.map fun p => (p.id, p.name)).length = ps.length) := by
  constructor
  · intro h
    subst h
    rfl
  · intro h
    have hlen : ps.length ≠ 0 := by simpa using h
    exact ⟨by simp [renderProductsGrid, hlen], by simp⟩

/-- C8 witness: the theorem applied to the empty list and to a concrete
one-item list. -/
theorem C8_empty_state_witness :
    renderProductsGrid [] = .emptyMessage ("No items in the list. Add some!") ∧
    renderProductsGrid [sampleEarly]
      = .rows ([sampleEarly].map fun p => (p.id, p.name)) :=
  ⟨(C8_empty_state []).1 rfl, ((C8_empty_state [sampleEarly]).2 (by decide)).1⟩

/-- C9: removing an identifier that is absent from the current mirrored
list leaves the backend collection unchanged — so the snapshot it induces
renders the very same list — and the handler's promise resolves whatever
the backend answers. -/
theorem C9_remove_absent_id (env : Env) (st : AppState) (backend : List Product)
    (id : String) (wr : Except String Unit)
    (hdb : st.db = true) (hready : st.isAuthReady = true)
    (hmirror : st.products = processSnapshot backend)
    (hid : id ∉ st.products.map Product.id) :
    (handleRemoveProduct env st id wr).outcome = .resolved ∧
    deleteDocBackend backend id = backend ∧
    processSnapshot (deleteDocBackend backend id) = st.products := by
  have houtcome : (handleRemoveProduct env st id wr).outcome = .resolved := by
    cases wr <;> simp [handleRemoveProduct, hdb, hready]
  have hidb : id ∉ backend.map Product.id := by
    intro hmem
    apply hid
    rw [hmirror]
    have hperm : List.Perm (processSnapshot backend) backend :=
      List.mergeSort_perm backend jsTimestampLe
    exact ((hperm.map Product.id).mem_iff).mpr hmem
  have hdel : deleteDocBackend backend id = backend := by
    apply List.filter_eq_self.mpr
    intro a ha
    simp only [ne_eq, decide_eq_true_eq]
    intro heq
    exact hidb (heq ▸ List.mem_map_of_mem Product.id ha)
  exact ⟨houtcome, hdel, by rw [hdel, ← hmirror]⟩

/-- C9 witness: the theorem applied at a ready state mirroring a one-item
collection, removing an identifier that is not there. -/
theorem C9_remove_absent_id_witness :
    (handleRemoveProduct sampleEnv mirrorState ("doc-zz") (.ok ())).outcome
      = .resolved ∧
    deleteDocBackend [sampleEarly] ("doc-zz") = [sampleEarly] ∧
    processSnapshot (deleteDocBackend [sampleEarly] ("doc-zz"))
      = mirrorState.products :=
  C9_remove_absent_id sampleEnv mirrorState [sampleEarly] ("doc-zz") (.ok ())
    rfl rfl rfl (by
      have hone : mirrorState.products = [sampleEarly] :=
        List.mergeSort_singleton sampleEarly
      rw [hone]
      decide)

/-- C10: when the readiness precondition fails, both handlers return
before any state update: there is no in-flight state and the completion
state — in particular the loading flag and the mirrored product list — is
exactly the entry state. -/
theorem C10_early_return_frame (env : Env) (st : AppState) (product : CatalogItem)
    (now : Nat) (wr : Except String String) (id : String) (wr2 : Except String Unit)
    (h : st.db = false ∨ st.isAuthReady = false) :
    (handleAddProduct env st product now wr).duringAwait = none ∧
    (handleAddProduct env st product now wr).final = st ∧
    (handleRemoveProduct env st id wr2).duringAwait = none ∧
    (handleRemoveProduct env st id wr2).final = st := by
  rcases h with h | h <;> simp [handleAddProduct, handleRemoveProduct, h]

/-- C10 witness: the theorem applied at the initial state, where the
database handle is absent. -/
theorem C10_early_return_frame_witness :
    (handleAddProduct sampleEnv initialState ⟨"spinachRoll", "Spinach Roll"⟩ 100
        (.ok ("doc-a"))).duringAwait = none ∧
    (handleAddProduct sampleEnv initialState ⟨"spinachRoll", "Spinach Roll"⟩ 100
        (.ok ("doc-a"))).final = initialState ∧
    (handleRemoveProduct sampleEnv initialState ("doc-a") (.ok ())).duringAwait
      = none ∧
    (handleRemoveProduct sampleEnv initialState ("doc-a") (.ok ())).final
      = initialState :=
  C10_early_return_frame sampleEnv initialState ⟨"spinachRoll", "Spinach Roll"⟩ 100
    (.ok ("doc-a")) ("doc-a") (.ok ()) (Or.inl rfl)

end Replenish
